import Mathlib

/-!
Verification of the Sanhedrin task-lifecycle orchestrator.

The repository ships the tests and supporting utilities of the orchestrator;
the orchestrator modules themselves (`sanhedrin.core.types`,
`sanhedrin.core.state_machine`, `sanhedrin.core.errors`,
`sanhedrin.server.task_manager`, `sanhedrin.adapters.base`) are not present,
so those parts are modelled from the specification, as marked on each
definition.  The LRU cache (`sanhedrin/utils/cache.py`) is present and is
embedded directly from its source.
-/

namespace Sanhedrin

/-- Modelled from the spec: `TaskState` enumeration from `sanhedrin.core.types`
(missing from the sources); the nine states of §3 of the spec. -/
inductive TaskState where
  | submitted
  | working
  | input_required
  | auth_required
  | completed
  | failed
  | canceled
  | rejected
  | unknown
deriving DecidableEq, Repr

/-- Modelled from the spec: wire form of a state, the canonical
lowercase-hyphenated string (`input-required`, not `INPUT_REQUIRED`). -/
def TaskState.wire : TaskState → String
  | .submitted => "submitted"
  | .working => "working"
  | .input_required => "input-required"
  | .auth_required => "auth-required"
  | .completed => "completed"
  | .failed => "failed"
  | .canceled => "canceled"
  | .rejected => "rejected"
  | .unknown => "unknown"

/-- Modelled from the spec: `TERMINAL_STATES` of `sanhedrin.core.state_machine`
(missing from the sources). -/
def TERMINAL_STATES : List TaskState :=
  [.completed, .failed, .canceled, .rejected]

/-- Modelled from the spec: `ACTIVE_STATES` of `sanhedrin.core.state_machine`
(missing from the sources). -/
def ACTIVE_STATES : List TaskState :=
  [.submitted, .working]

/-- Modelled from the spec: the `VALID_TRANSITIONS` table of
`sanhedrin.core.state_machine` (missing from the sources), reproduced exactly
from the table in §4.1 of the spec. -/
def VALID_TRANSITIONS : TaskState → List TaskState
  | .submitted => [.working, .canceled, .rejected, .failed]
  | .working => [.input_required, .auth_required, .completed, .failed, .canceled]
  | .input_required => [.working, .canceled, .failed]
  | .auth_required => [.working, .canceled, .failed]
  | .completed => []
  | .failed => []
  | .canceled => []
  | .rejected => []
  | .unknown => [.working]

/-- Modelled from the spec: `TransitionRecord` of `sanhedrin.core.types`
(missing from the sources).  Timestamps are an abstract `Nat` clock supplied
by the caller. -/
structure TransitionRecord where
  from_state : TaskState
  to_state : TaskState
  timestamp : Nat
  reason : String
deriving DecidableEq, Repr

/-- Modelled from the spec: a `Part` of a `Message` (`sanhedrin.core.types`,
missing from the sources): polymorphic over text, data and file variants. -/
inductive Part where
  | text (text : String)
  | data (mime_type : String) (payload : String)
  | file (file : String)
deriving DecidableEq, Repr

/-- Modelled from the spec: message role, user or agent. -/
inductive Role where
  | user
  | agent
deriving DecidableEq, Repr

/-- Modelled from the spec: `Message` of `sanhedrin.core.types` (missing from
the sources). -/
structure Message where
  role : Role
  parts : List Part
  context_id : Option String := none
  task_id : Option String := none
deriving DecidableEq, Repr

/-- Modelled from the spec: `TaskStatus` of `sanhedrin.core.types` (missing
from the sources): the current snapshot of a task. -/
structure TaskStatus where
  state : TaskState
  created_at : Nat
  updated_at : Nat
  message : Option Message := none
deriving DecidableEq, Repr

/-- Modelled from the spec: `Artifact` of `sanhedrin.core.types` (missing from
the sources). -/
structure Artifact where
  artifact_id : String
  name : String
  parts : List Part
deriving DecidableEq, Repr

/-- Modelled from the spec: `InvalidStateTransitionError` of
`sanhedrin.core.errors` (missing from the sources), carrying the from-state,
the to-state and the set of currently-valid targets. -/
structure InvalidStateTransitionError where
  from_state : TaskState
  to_state : TaskState
  valid_transitions : List TaskState
deriving DecidableEq, Repr

/-- Modelled from the spec: `TaskNotFoundError` of `sanhedrin.core.errors`
(missing from the sources), carrying the unknown task id. -/
structure TaskNotFoundError where
  task_id : String
deriving DecidableEq, Repr

/-- Modelled from the spec: the JSON-RPC error code of `TaskNotFoundError`
(`TASK_NOT_FOUND` in the canonical code table of §6). -/
def TaskNotFoundError.code (_ : TaskNotFoundError) : Int := -32001

/-- Modelled from the spec: the error message of `TaskNotFoundError`, which
carries the task id. -/
def TaskNotFoundError.message (e : TaskNotFoundError) : String :=
  "Task not found: " ++ e.task_id

/-- Modelled from the spec: `TaskStateMachine` of
`sanhedrin.core.state_machine` (missing from the sources): the current state
plus the ordered, append-only history of transition records. -/
structure TaskStateMachine where
  current_state : TaskState
  created_at : Nat
  history : List TransitionRecord
deriving DecidableEq, Repr

namespace TaskStateMachine

/-- Modelled from the spec: construction of a state machine
(`create_state_machine`): the history is seeded with the synthetic initial
record `from_state = unknown`, `reason = "Initial state"`. -/
def create (initial_state : TaskState := .submitted) (now : Nat) :
    TaskStateMachine :=
  { current_state := initial_state
    created_at := now
    history := [{ from_state := .unknown, to_state := initial_state,
                  timestamp := now, reason := "Initial state" }] }

/-- Modelled from the spec: `get_valid_transitions()`. -/
def get_valid_transitions (sm : TaskStateMachine) : List TaskState :=
  VALID_TRANSITIONS sm.current_state

/-- Modelled from the spec: `can_transition_to(target)`: true iff the target
is in the table entry of the current state. -/
def can_transition_to (sm : TaskStateMachine) (target : TaskState) : Bool :=
  (VALID_TRANSITIONS sm.current_state).contains target

/-- Modelled from the spec: `is_terminal`. -/
def is_terminal (sm : TaskStateMachine) : Bool :=
  TERMINAL_STATES.contains sm.current_state

/-- Modelled from the spec: the `TaskStatus` snapshot of the machine
(`get_status`). -/
def get_status (sm : TaskStateMachine) (now : Nat)
    (message : Option Message := none) : TaskStatus :=
  { state := sm.current_state, created_at := sm.created_at,
    updated_at := now, message := message }

/-- Modelled from the spec: `transition_to(target, reason)`.  If
`can_transition_to` is false it fails with `InvalidStateTransitionError`
carrying the from-state, the to-state and the currently-valid targets, and
the machine is left unchanged (the second component); otherwise it appends a
`TransitionRecord`, updates `current_state` and returns the new status. -/
def transition_to (sm : TaskStateMachine) (target : TaskState)
    (reason : String) (now : Nat) :
    Except InvalidStateTransitionError TaskStatus × TaskStateMachine :=
  if sm.can_transition_to target then
    let sm' : TaskStateMachine :=
      { current_state := target
        created_at := sm.created_at
        history := sm.history ++
          [{ from_state := sm.current_state, to_state := target,
             timestamp := now, reason := reason }] }
    (.ok (sm'.get_status now), sm')
  else
    (.error { from_state := sm.current_state, to_state := target,
              valid_transitions := sm.get_valid_transitions }, sm)

/-- Modelled from the spec: `force_transition(target, reason)`: bypasses the
table entirely; the recorded reason is prefixed `[FORCED]` to distinguish
forced transitions in the audit history. -/
def force_transition (sm : TaskStateMachine) (target : TaskState)
    (reason : String) (now : Nat) : TaskStateMachine :=
  { current_state := target
    created_at := sm.created_at
    history := sm.history ++
      [{ from_state := sm.current_state, to_state := target,
         timestamp := now, reason := "[FORCED] " ++ reason }] }

end TaskStateMachine

/-- Modelled from the spec: `ExecutionResult` of the Executor contract §4.3
(`sanhedrin.adapters.base`, missing from the sources). -/
structure ExecutionResult where
  success : Bool
  content : String
  error : Option String := none
  exit_code : Int := 0
deriving DecidableEq, Repr

/-- Modelled from the spec: the chunk type discriminant of a `StreamChunk`
(text or error). -/
inductive ChunkType where
  | text
  | error
deriving DecidableEq, Repr

/-- Modelled from the spec: `StreamChunk` of the Executor streaming contract
§4.3 (`sanhedrin.adapters.base`, missing from the sources). -/
structure StreamChunk where
  content : String
  chunk_type : ChunkType := .text
  is_final : Bool := false
deriving DecidableEq, Repr

/-- The chunk sequence `MockAdapter.execute_stream` emits for a successful
run (tests/conftest.py lines 127-146): one chunk per word of the response,
each word with a trailing space, the last chunk marked final. -/
def wordChunks (words : List String) : List StreamChunk :=
  words.enum.map fun p =>
    { content := p.2 ++ " ", chunk_type := .text,
      is_final := p.1 == words.length - 1 }

/-- Modelled from the spec: `Task` of `sanhedrin.core.types` (missing from
the sources): the aggregate root, exclusively owning its state machine and
its append-only history and artifact sequences. -/
structure Task where
  id : String
  context_id : String
  status : TaskStatus
  history : List Message
  artifacts : List Artifact
  sm : TaskStateMachine
deriving DecidableEq, Repr

/-- Modelled from the spec: errors surfaced by Task Manager operations —
structural errors are always surfaced to the caller (§7). -/
inductive ManagerError where
  | notFound (e : TaskNotFoundError)
  | invalidTransition (e : InvalidStateTransitionError)
deriving DecidableEq, Repr

/-- Modelled from the spec: the Task Manager's registry mapping task id to
Task (`sanhedrin.server.task_manager`, missing from the sources).  A Python
dict preserves insertion order, so the registry is an ordered association
list. -/
structure TaskManager where
  registry : List (String × Task)
deriving DecidableEq, Repr

namespace TaskManager

/-- Modelled from the spec: a freshly constructed manager holds no tasks. -/
def empty : TaskManager := { registry := [] }

/-- Modelled from the spec: container semantics — the manager reports its
current task count (`len`). -/
def length (mgr : TaskManager) : Nat := mgr.registry.length

/-- Registry lookup by task id (first match; ids are unique in a dict). -/
def find? (mgr : TaskManager) (id : String) : Option Task :=
  (mgr.registry.find? fun p => p.1 == id).map (·.2)

/-- Replace the task stored under `id`, preserving registry order. -/
def store (mgr : TaskManager) (id : String) (task : Task) : TaskManager :=
  { registry := mgr.registry.map fun p => if p.1 == id then (id, task) else p }

/-- Modelled from the spec: `create_task(initial_message, context_id)`.
Generated identifiers are abstracted as the `new_id` / `new_context_id`
parameters; the task starts in `submitted` with `history = [initial_message]`
and a freshly seeded state machine. -/
def create_task (mgr : TaskManager) (initial_message : Message)
    (context_id : Option String) (new_id new_context_id : String)
    (now : Nat) : Task × TaskManager :=
  let sm := TaskStateMachine.create .submitted now
  let task : Task :=
    { id := new_id
      context_id := context_id.getD new_context_id
      status := { state := .submitted, created_at := now, updated_at := now }
      history := [initial_message]
      artifacts := []
      sm := sm }
  (task, { registry := mgr.registry ++ [(new_id, task)] })

/-- Modelled from the spec: `get_task(id)`, failing with
`TaskNotFoundError(id)` when the id is absent. -/
def get_task (mgr : TaskManager) (id : String) :
    Except TaskNotFoundError Task :=
  match mgr.find? id with
  | some task => .ok task
  | none => .error { task_id := id }

/-- Modelled from the spec: `list_tasks(state, limit)`: tasks optionally
filtered by exact state and capped to `limit` entries, in insertion order. -/
def list_tasks (mgr : TaskManager) (state : Option TaskState := none)
    (limit : Option Nat := none) : List Task :=
  let tasks := mgr.registry.map (·.2)
  let tasks := match state with
    | some s => tasks.filter fun t => t.status.state == s
    | none => tasks
  match limit with
  | some n => tasks.take n
  | none => tasks

/-- Apply a state-machine transition to a task, updating `task.status.state`
and the machine atomically (they are one fact, §3), and recording the given
status message. -/
def Task.applyTransition (task : Task) (sm' : TaskStateMachine) (now : Nat)
    (message : Option Message := none) : Task :=
  { task with
    sm := sm'
    status := { state := sm'.current_state,
                created_at := task.status.created_at,
                updated_at := now, message := message } }

/-- Modelled from the spec: `transition_state(id, target, message, reason)`:
looks up the task (propagating `TaskNotFound`), delegates to the state
machine's `transition_to` (propagating `InvalidStateTransition` unchanged,
with nothing mutated), and appends the message, when supplied, to the task
history; status and history move together. -/
def transition_state (mgr : TaskManager) (id : String) (target : TaskState)
    (message : Option Message := none) (reason : String := "")
    (now : Nat := 0) : Except ManagerError (Task × TaskManager) :=
  match mgr.get_task id with
  | .error e => .error (.notFound e)
  | .ok task =>
    match task.sm.transition_to target reason now with
    | (.error e, _) => .error (.invalidTransition e)
    | (.ok _, sm') =>
      let task' := Task.applyTransition task sm' now message
      let task' := match message with
        | some m => { task' with history := task'.history ++ [m] }
        | none => task'
      .ok (task', mgr.store id task')

/-- Modelled from the spec: the result Artifact built from the Executor's
output content on successful execution. -/
def resultArtifact (content : String) : Artifact :=
  { artifact_id := "result", name := "result",
    parts := [Part.text content] }

/-- Modelled from the spec: a terminal status message recording an Executor
error string. -/
def errorMessage (err : String) : Message :=
  { role := .agent, parts := [Part.text err] }

/-- Modelled from the spec: `execute_task_sync(id)`: transitions the task to
`working`, consults the Executor's blocking result, and on success appends a
result Artifact built from the output and transitions to `completed`; on
Executor failure transitions to `failed`, recording the error as the terminal
status message.  Executor failure is never raised; structural errors (task
not found, the transition into `working` impossible) propagate.  The
Executor's blocking call is abstracted as its `ExecutionResult`. -/
def execute_task_sync (mgr : TaskManager) (id : String)
    (result : ExecutionResult) (now : Nat) :
    Except ManagerError (Task × TaskManager) :=
  match mgr.get_task id with
  | .error e => .error (.notFound e)
  | .ok task =>
    match task.sm.transition_to .working "Starting execution" now with
    | (.error e, _) => .error (.invalidTransition e)
    | (.ok _, smWorking) =>
      let taskWorking := Task.applyTransition task smWorking now
      if result.success then
        let (_, smDone) :=
          smWorking.transition_to .completed "Execution completed" now
        let taskDone :=
          { Task.applyTransition taskWorking smDone now with
            artifacts := taskWorking.artifacts ++
              [resultArtifact result.content] }
        .ok (taskDone, mgr.store id taskDone)
      else
        let err := result.error.getD "Execution failed"
        let (_, smDone) := smWorking.transition_to .failed err now
        let taskDone := Task.applyTransition taskWorking smDone now
          (some (errorMessage err))
        .ok (taskDone, mgr.store id taskDone)

/-- Modelled from the spec: an event of the streaming execution sequence —
either a status-update event or a content (partial artifact) event carrying
one Executor chunk. -/
inductive StreamEvent where
  | statusUpdate (state : TaskState)
  | content (chunk : StreamChunk)
deriving DecidableEq, Repr

/-- Consume the Executor's chunk stream: each text chunk becomes one content
event; an error chunk stops streaming with nothing of it emitted and marks
the run failed. -/
def consumeChunks : List StreamChunk → List StreamEvent × Bool
  | [] => ([], false)
  | c :: cs =>
    if c.chunk_type == .error then ([], true)
    else
      let (evs, failed) := consumeChunks cs
      (.content c :: evs, failed)

/-- Modelled from the spec: `execute_task(id)`, the streaming counterpart.
Produces, in order: a status-update event for the `working` transition, one
event per chunk of the Executor's streaming call, then a final status-update
event for `completed` or `failed`; an error chunk mid-stream stops streaming
with the failure status and no partial artifact finalized as successful.
The Executor's streaming call is abstracted as its chunk list; the returned
list is the fully consumed single-pass event sequence. -/
def execute_task (mgr : TaskManager) (id : String)
    (chunks : List StreamChunk) (now : Nat) :
    Except ManagerError (List StreamEvent × Task × TaskManager) :=
  match mgr.get_task id with
  | .error e => .error (.notFound e)
  | .ok task =>
    match task.sm.transition_to .working "Starting execution" now with
    | (.error e, _) => .error (.invalidTransition e)
    | (.ok _, smWorking) =>
      let taskWorking := Task.applyTransition task smWorking now
      let (contentEvents, streamFailed) := consumeChunks chunks
      let final : TaskState := if streamFailed then .failed else .completed
      let (_, smDone) := smWorking.transition_to final "Streaming done" now
      let taskDone :=
        if streamFailed then Task.applyTransition taskWorking smDone now
        else
          { Task.applyTransition taskWorking smDone now with
            artifacts := taskWorking.artifacts ++
              [resultArtifact (String.join (chunks.map (·.content)))] }
      let events := StreamEvent.statusUpdate .working ::
        contentEvents ++ [StreamEvent.statusUpdate final]
      .ok (events, taskDone, mgr.store id taskDone)

/-- Modelled from the spec: `cleanup_completed(max_age_seconds)`: removes the
terminal tasks whose status `updated_at` is at least `max_age_seconds` old
(an age of `0` removes all currently-terminal tasks immediately); active and
waiting tasks are never removed.  Returns the count removed and the new
registry. -/
def cleanup_completed (mgr : TaskManager) (max_age_seconds : Nat)
    (now : Nat) : Nat × TaskManager :=
  let keep : String × Task → Bool := fun p =>
    !(TERMINAL_STATES.contains p.2.status.state &&
      decide (max_age_seconds ≤ now - p.2.status.updated_at))
  let registry' := mgr.registry.filter keep
  (mgr.registry.length - registry'.length, { registry := registry' })

end TaskManager

/-! Embedding of `src/sanhedrin/utils/cache.py` (present in the sources).
Wall-clock time (`time.time()`) is an abstract `Nat` clock supplied to each
operation. -/

/-- `CacheEntry` (cache.py lines 19-37): a cached value with creation and
access times and an optional TTL. -/
structure CacheEntry (α : Type) where
  value : α
  created_at : Nat
  accessed_at : Nat
  ttl : Option Nat
deriving DecidableEq, Repr

/-- `CacheEntry.is_expired` (cache.py lines 28-33): no TTL means never
expired, otherwise expired when `now - created_at > ttl`. -/
def CacheEntry.is_expired {α : Type} (e : CacheEntry α) (now : Nat) : Bool :=
  match e.ttl with
  | none => false
  | some t => decide (t < now - e.created_at)

/-- `CacheEntry.touch` (cache.py lines 35-37): update the last accessed
time. -/
def CacheEntry.touch {α : Type} (e : CacheEntry α) (now : Nat) :
    CacheEntry α :=
  { e with accessed_at := now }

/-- `LRUCache` (cache.py lines 40-230): an `OrderedDict` from key to entry —
an ordered association list with unique keys, least-recently-used first —
plus the size bound, the default TTL and the hit/miss counters. -/
structure LRUCache (α : Type) where
  max_size : Nat
  default_ttl : Option Nat
  cache : List (String × CacheEntry α)
  hits : Nat
  misses : Nat
deriving DecidableEq, Repr

namespace LRUCache

/-- `LRUCache.__init__` (cache.py lines 57-76): empty cache, zero stats. -/
def init (α : Type) (max_size : Nat := 1000)
    (default_ttl : Option Nat := none) : LRUCache α :=
  { max_size := max_size, default_ttl := default_ttl,
    cache := [], hits := 0, misses := 0 }

/-- `self._cache.get(key)`: first (only) binding of `key`. -/
def lookupKey {α : Type} (key : String) :
    List (String × CacheEntry α) → Option (CacheEntry α)
  | [] => none
  | (k, e) :: rest => if k == key then some e else lookupKey key rest

/-- `del self._cache[key]`: drop the (single) binding of `key`. -/
def eraseKey {α : Type} (key : String) :
    List (String × CacheEntry α) → List (String × CacheEntry α)
  | [] => []
  | (k, e) :: rest => if k == key then rest else (k, e) :: eraseKey key rest

/-- `self._cache.move_to_end(key)`: move the binding of `key` to the
most-recently-used end, its entry updated to `e`. -/
def moveToEnd {α : Type} (key : String) (e : CacheEntry α)
    (l : List (String × CacheEntry α)) : List (String × CacheEntry α) :=
  eraseKey key l ++ [(key, e)]

/-- `LRUCache.get` (cache.py lines 78-104): a missing key is a miss; an
expired entry is deleted and a miss; otherwise the entry moves to the
most-recently-used end, is touched, and its value is returned as a hit. -/
def get {α : Type} (c : LRUCache α) (key : String) (now : Nat) :
    Option α × LRUCache α :=
  match lookupKey key c.cache with
  | none => (none, { c with misses := c.misses + 1 })
  | some e =>
    if e.is_expired now then
      (none, { c with cache := eraseKey key c.cache,
                      misses := c.misses + 1 })
    else
      (some e.value,
       { c with cache := moveToEnd key (e.touch now) c.cache,
                hits := c.hits + 1 })

/-- The eviction loop of `LRUCache.set` (cache.py lines 132-134):
`while len(self._cache) >= self.max_size: self._cache.popitem(last=False)`.
`popitem` on an empty dict raises in Python; that needs `max_size = 0`, and
here the empty list simply returns. -/
def evict {α : Type} (max_size : Nat) :
    List (String × CacheEntry α) → List (String × CacheEntry α)
  | [] => []
  | p :: rest =>
    if max_size ≤ (p :: rest).length then evict max_size rest
    else p :: rest

/-- `LRUCache.set` (cache.py lines 111-136): resolve the entry TTL from the
override or the default, delete the key if present (to update order), evict
least-recently-used entries while at capacity, then insert at the
most-recently-used end. -/
def set {α : Type} (c : LRUCache α) (key : String) (value : α)
    (ttl : Option Nat) (now : Nat) : LRUCache α :=
  let entry_ttl := match ttl with
    | some t => some t
    | none => c.default_ttl
  let l := eraseKey key c.cache
  let l := evict c.max_size l
  { c with cache := l ++ [(key, { value := value, created_at := now,
                                  accessed_at := now, ttl := entry_ttl })] }

/-- `LRUCache.delete` (cache.py lines 148-161): remove the binding, reporting
whether one was removed. -/
def delete {α : Type} (c : LRUCache α) (key : String) :
    Bool × LRUCache α :=
  if (lookupKey key c.cache).isSome then
    (true, { c with cache := eraseKey key c.cache })
  else
    (false, c)

/-- `LRUCache.clear` (cache.py lines 168-172): drop every entry and reset the
stats. -/
def clear {α : Type} (c : LRUCache α) : LRUCache α :=
  { c with cache := [], hits := 0, misses := 0 }

/-- `LRUCache.cleanup_expired` (cache.py lines 179-194): remove every expired
entry, returning how many were removed. -/
def cleanup_expired {α : Type} (c : LRUCache α) (now : Nat) :
    Nat × LRUCache α :=
  let kept := c.cache.filter fun p => !(p.2.is_expired now)
  (c.cache.length - kept.length, { c with cache := kept })

/-- `LRUCache.__len__` (cache.py lines 201-202). -/
def size {α : Type} (c : LRUCache α) : Nat := c.cache.length

/-- One cache operation, for stating invariants over operation sequences. -/
inductive CacheOp (α : Type) where
  | set (key : String) (value : α) (ttl : Option Nat) (now : Nat)
  | get (key : String) (now : Nat)
  | delete (key : String)
  | clear
  | cleanupExpired (now : Nat)
deriving Repr

/-- Apply one operation to the cache, discarding any returned value. -/
def applyOp {α : Type} (c : LRUCache α) : CacheOp α → LRUCache α
  | .set key value ttl now => c.set key value ttl now
  | .get key now => (c.get key now).2
  | .delete key => (c.delete key).2
  | .clear => c.clear
  | .cleanupExpired now => (c.cleanup_expired now).2

/-- Run a sequence of operations from a freshly constructed cache. -/
def runOps (α : Type) (max_size : Nat) (default_ttl : Option Nat)
    (ops : List (CacheOp α)) : LRUCache α :=
  ops.foldl applyOp (init α max_size default_ttl)

end LRUCache

/-! Theorems about the state machine. -/

/-- A state is in the terminal set exactly when its transition-table entry is
empty. -/
lemma terminal_iff_no_transitions (s : TaskState) :
    TERMINAL_STATES.contains s = true ↔ VALID_TRANSITIONS s = [] := by
  cases s <;> decide

/-- C1: in every terminal state (`completed`, `failed`, `canceled`,
`rejected`) the machine has `get_valid_transitions` equal to the empty set,
and every `transition_to` call fails and leaves the machine unchanged, so a
terminal task is never changed by a normal transition. -/
theorem terminal_state_frozen (sm : TaskStateMachine) (target : TaskState)
    (reason : String) (now : Nat)
    (h : TERMINAL_STATES.contains sm.current_state = true) :
    sm.get_valid_transitions = [] ∧
    sm.transition_to target reason now =
      (.error { from_state := sm.current_state, to_state := target,
                valid_transitions := [] }, sm) := by
  have hv : VALID_TRANSITIONS sm.current_state = [] :=
    (terminal_iff_no_transitions sm.current_state).mp h
  refine ⟨by simp [TaskStateMachine.get_valid_transitions, hv], ?_⟩
  simp [TaskStateMachine.transition_to, TaskStateMachine.can_transition_to,
    TaskStateMachine.get_valid_transitions, hv]

/-- Witness for C1 at a machine created directly in `completed`. -/
theorem terminal_state_frozen_witness :
    TERMINAL_STATES.contains
      (TaskStateMachine.create .completed 0).current_state = true ∧
    ((TaskStateMachine.create .completed 0).get_valid_transitions = [] ∧
     (TaskStateMachine.create .completed 0).transition_to .working "go" 1 =
       (.error { from_state := .completed, to_state := .working,
                 valid_transitions := [] },
        TaskStateMachine.create .completed 0)) :=
  ⟨by decide,
   terminal_state_frozen (TaskStateMachine.create .completed 0) .working
     "go" 1 (by decide)⟩

/-- C2: `transition_to` with an invalid target fails with
`InvalidStateTransitionError` carrying the from-state, the to-state and the
currently-valid targets, and leaves the machine (state and history)
unchanged; with a valid target it updates `current_state` and appends exactly
one `TransitionRecord`. -/
theorem transition_to_spec (sm : TaskStateMachine) (target : TaskState)
    (reason : String) (now : Nat) :
    (sm.can_transition_to target = false →
      sm.transition_to target reason now =
        (.error { from_state := sm.current_state, to_state := target,
                  valid_transitions := sm.get_valid_transitions }, sm)) ∧
    (sm.can_transition_to target = true →
      ∃ sm', sm.transition_to target reason now =
          (.ok (sm'.get_status now), sm') ∧
        sm'.current_state = target ∧
        sm'.history = sm.history ++
          [{ from_state := sm.current_state, to_state := target,
             timestamp := now, reason := reason }]) := by
  constructor
  · intro h
    simp [TaskStateMachine.transition_to, h]
  · intro h
    refine ⟨{ current_state := target, created_at := sm.created_at,
              history := sm.history ++
                [{ from_state := sm.current_state, to_state := target,
                   timestamp := now, reason := reason }] }, ?_, rfl, rfl⟩
    simp [TaskStateMachine.transition_to, h]

/-- Witness for C2: from `submitted`, the invalid target `input-required`
fails with the full error payload and no mutation, while the valid target
`working` appends exactly one record. -/
theorem transition_to_spec_witness :
    ((TaskStateMachine.create .submitted 0).can_transition_to
        .input_required = false ∧
     (TaskStateMachine.create .submitted 0).transition_to .input_required
        "r" 5 =
       (.error { from_state := .submitted, to_state := .input_required,
                 valid_transitions := [.working, .canceled, .rejected,
                                       .failed] },
        TaskStateMachine.create .submitted 0)) ∧
    ∃ sm', (TaskStateMachine.create .submitted 0).transition_to .working
        "r" 5 = (.ok (sm'.get_status 5), sm') ∧
      sm'.current_state = .working ∧
      sm'.history = (TaskStateMachine.create .submitted 0).history ++
        [{ from_state := .submitted, to_state := .working,
           timestamp := 5, reason := "r" }] :=
  ⟨⟨by decide,
    (transition_to_spec (TaskStateMachine.create .submitted 0)
      .input_required "r" 5).1 (by decide)⟩,
   (transition_to_spec (TaskStateMachine.create .submitted 0)
      .working "r" 5).2 (by decide)⟩

/-- C7: `force_transition` always succeeds — from any current state,
including terminal ones, and to any target — setting `current_state` to the
target and appending a history record whose reason carries the `[FORCED]`
prefix, distinguishing it in the audit history. -/
theorem force_transition_spec (sm : TaskStateMachine) (target : TaskState)
    (reason : String) (now : Nat) :
    (sm.force_transition target reason now).current_state = target ∧
    (sm.force_transition target reason now).history =
      sm.history ++
        [{ from_state := sm.current_state, to_state := target,
           timestamp := now, reason := "[FORCED] " ++ reason }] :=
  ⟨rfl, rfl⟩

/-! Theorems about the Task Manager. -/

/-- C6: every created task starts in `submitted`, its message history is
exactly the one-element sequence holding the initial message, and its state
machine holds exactly the synthetic initial record `from_state = unknown`,
`to_state = submitted`, `reason = "Initial state"`. -/
theorem create_task_spec (mgr : TaskManager) (msg : Message)
    (ctx : Option String) (new_id new_ctx : String) (now : Nat) :
    (mgr.create_task msg ctx new_id new_ctx now).1.status.state =
      .submitted ∧
    (mgr.create_task msg ctx new_id new_ctx now).1.history = [msg] ∧
    (mgr.create_task msg ctx new_id new_ctx now).1.sm.history =
      [{ from_state := .unknown, to_state := .submitted,
         timestamp := now, reason := "Initial state" }] :=
  ⟨rfl, rfl, rfl⟩

/-- C8: `get_task` on an id absent from the registry fails with
`TaskNotFoundError` for that id, whose code is `-32001` (TASK_NOT_FOUND) and
whose message contains the id. -/
theorem get_task_not_found_spec (mgr : TaskManager) (id : String)
    (h : mgr.find? id = none) :
    mgr.get_task id = .error { task_id := id } ∧
    TaskNotFoundError.code { task_id := id } = -32001 ∧
    ∃ pre post,
      TaskNotFoundError.message { task_id := id } = pre ++ id ++ post := by
  refine ⟨?_, rfl, "Task not found: ", "", ?_⟩
  · simp [TaskManager.get_task, h]
  · simp [TaskNotFoundError.message]

/-- Witness for C8 at the empty registry and the id the test suite uses. -/
theorem get_task_not_found_spec_witness :
    TaskManager.empty.find? "nonexistent-id" = none ∧
    (TaskManager.empty.get_task "nonexistent-id" =
        .error { task_id := "nonexistent-id" } ∧
     TaskNotFoundError.code { task_id := "nonexistent-id" } = -32001 ∧
     ∃ pre post, TaskNotFoundError.message { task_id := "nonexistent-id" } =
        pre ++ "nonexistent-id" ++ post) :=
  ⟨rfl, get_task_not_found_spec TaskManager.empty "nonexistent-id" rfl⟩

/-- Creating ten tasks into a manager, as the C9 scenario does (ids are the
decimal indices). -/
def tenTaskManager (msg : Message) : TaskManager :=
  (List.range 10).foldl
    (fun m i => (m.create_task msg none (toString i) "ctx" 0).2)
    TaskManager.empty

/-- C9: `list_tasks` with a state filter returns exactly the registered tasks
in that state (sound and complete), in insertion order (a sublist of the
unfiltered listing); a `limit` caps the result to `min limit count` entries;
and after creating 10 tasks, `list_tasks (limit := 5)` returns exactly 5
tasks. -/
theorem list_tasks_spec (mgr : TaskManager) (s : TaskState) (k : Nat)
    (msg : Message) :
    (∀ t ∈ mgr.list_tasks (some s) none, t.status.state = s) ∧
    (∀ t ∈ mgr.list_tasks none none, t.status.state = s →
      t ∈ mgr.list_tasks (some s) none) ∧
    (mgr.list_tasks (some s) none).Sublist (mgr.list_tasks none none) ∧
    (mgr.list_tasks none (some k)).length = min k mgr.length ∧
    ((tenTaskManager msg).list_tasks none (some 5)).length = 5 := by
  refine ⟨?_, ?_, ?_, ?_, ?_⟩
  · intro t ht
    simp [TaskManager.list_tasks, List.mem_filter] at ht
    exact ht.2
  · intro t ht hs
    simp [TaskManager.list_tasks, List.mem_filter] at ht ⊢
    exact ⟨ht, hs⟩
  · exact List.filter_sublist (l := mgr.registry.map (·.2))
      (p := fun t => t.status.state == s)
  · simp [TaskManager.list_tasks, TaskManager.length]
  · rfl

/-- Witness for C9 at a two-task registry: the filtered listing returns
exactly the submitted task, the limited listing of the ten-task scenario has
length 5. -/
theorem list_tasks_spec_witness :
    (∀ t ∈ (tenTaskManager { role := .user, parts := [.text "hi"] }).list_tasks
        (some .submitted) none, t.status.state = .submitted) ∧
    ((tenTaskManager { role := .user, parts := [.text "hi"] }).list_tasks
        none (some 3)).length =
      min 3 (tenTaskManager { role := .user, parts := [.text "hi"] }).length ∧
    ((tenTaskManager { role := .user, parts := [.text "hi"] }).list_tasks
        none (some 5)).length = 5 :=
  ⟨(list_tasks_spec (tenTaskManager { role := .user, parts := [.text "hi"] })
      .submitted 3 { role := .user, parts := [.text "hi"] }).1,
   (list_tasks_spec (tenTaskManager { role := .user, parts := [.text "hi"] })
      .submitted 3 { role := .user, parts := [.text "hi"] }).2.2.2.1,
   (list_tasks_spec (tenTaskManager { role := .user, parts := [.text "hi"] })
      .submitted 3 { role := .user, parts := [.text "hi"] }).2.2.2.2⟩

/-- Whether `cleanup_completed` removes the registry entry `p`: terminal and
at least `max_age_seconds` old. -/
def removable (max_age_seconds now : Nat) (p : String × Task) : Prop :=
  TERMINAL_STATES.contains p.2.status.state = true ∧
    max_age_seconds ≤ now - p.2.status.updated_at

instance (max_age_seconds now : Nat) (p : String × Task) :
    Decidable (removable max_age_seconds now p) := by
  unfold removable; infer_instance

/-- Membership in the registry left by `cleanup_completed`: kept exactly when
present before and not removable. -/
lemma cleanup_mem_iff (mgr : TaskManager) (max_age_seconds now : Nat)
    (p : String × Task) :
    p ∈ (mgr.cleanup_completed max_age_seconds now).2.registry ↔
      p ∈ mgr.registry ∧ ¬ removable max_age_seconds now p := by
  simp [TaskManager.cleanup_completed, List.mem_filter, removable]
  tauto

/-- C5: `cleanup_completed` keeps exactly the registry entries that are not
(terminal and at least `max_age_seconds` old) — so every non-terminal task
survives unchanged regardless of age, and with `max_age_seconds = 0` every
currently-terminal task is removed — preserves registry order, and returns a
count by which the manager's reported length drops exactly. -/
theorem cleanup_completed_spec (mgr : TaskManager)
    (max_age_seconds now : Nat) :
    (∀ p, p ∈ (mgr.cleanup_completed max_age_seconds now).2.registry ↔
      p ∈ mgr.registry ∧ ¬ removable max_age_seconds now p) ∧
    ((mgr.cleanup_completed max_age_seconds now).2.registry).Sublist
      mgr.registry ∧
    (mgr.cleanup_completed max_age_seconds now).2.length +
      (mgr.cleanup_completed max_age_seconds now).1 = mgr.length ∧
    (∀ p ∈ mgr.registry, TERMINAL_STATES.contains p.2.status.state = false →
      p ∈ (mgr.cleanup_completed max_age_seconds now).2.registry) ∧
    (∀ p ∈ mgr.registry, TERMINAL_STATES.contains p.2.status.state = true →
      p ∉ (mgr.cleanup_completed 0 now).2.registry) := by
  refine ⟨cleanup_mem_iff mgr max_age_seconds now, ?_, ?_, ?_, ?_⟩
  · exact List.filter_sublist mgr.registry
  · have hle : ((mgr.cleanup_completed max_age_seconds now).2.registry).length
        ≤ mgr.registry.length :=
      (List.filter_sublist mgr.registry).length_le
    simp only [TaskManager.cleanup_completed, TaskManager.length] at hle ⊢
    omega
  · intro p hp hterm
    refine (cleanup_mem_iff mgr max_age_seconds now p).mpr ⟨hp, fun hr => ?_⟩
    have hnotmem : p.2.status.state ∉ TERMINAL_STATES := by simpa using hterm
    exact hnotmem (by simpa using hr.1)
  · intro p hp hterm hmem0
    exact ((cleanup_mem_iff mgr 0 now p).mp hmem0).2 ⟨hterm, Nat.zero_le _⟩

/-- A registry holding one completed task and one submitted task, for the C5
cleanup scenario. -/
def cleanupScenarioManager : TaskManager :=
  let msg : Message := { role := .user, parts := [.text "hi"] }
  let m1 := (TaskManager.empty.create_task msg none "done" "ctx" 0).2
  let m2 := (m1.create_task msg none "live" "ctx" 0).2
  match m2.transition_state "done" .working none "start" 1 with
  | .error _ => m2
  | .ok (_, m3) =>
    match m3.transition_state "done" .completed none "finish" 2 with
    | .error _ => m3
    | .ok (_, m4) => m4

/-- Witness for C5 on a registry with one completed and one submitted task:
`cleanup_completed 0` removes the completed one, keeps the submitted one, and
the length drops by exactly the returned count. -/
theorem cleanup_completed_spec_witness :
    (∀ p ∈ cleanupScenarioManager.registry,
      TERMINAL_STATES.contains p.2.status.state = false →
        p ∈ (cleanupScenarioManager.cleanup_completed 0 5).2.registry) ∧
    (∀ p ∈ cleanupScenarioManager.registry,
      TERMINAL_STATES.contains p.2.status.state = true →
        p ∉ (cleanupScenarioManager.cleanup_completed 0 5).2.registry) ∧
    (cleanupScenarioManager.cleanup_completed 0 5).2.length +
      (cleanupScenarioManager.cleanup_completed 0 5).1 =
        cleanupScenarioManager.length ∧
    (cleanupScenarioManager.cleanup_completed 0 5).1 = 1 ∧
    (cleanupScenarioManager.cleanup_completed 0 5).2.length = 1 :=
  ⟨(cleanup_completed_spec cleanupScenarioManager 0 5).2.2.2.1,
   (cleanup_completed_spec cleanupScenarioManager 0 5).2.2.2.2,
   (cleanup_completed_spec cleanupScenarioManager 0 5).2.2.1,
   by decide, by decide⟩

/-- The successful form of `transition_to`: when the target is valid, the
returned status and machine are these records. -/
lemma transition_to_ok (sm : TaskStateMachine) (target : TaskState)
    (reason : String) (now : Nat)
    (h : sm.can_transition_to target = true) :
    sm.transition_to target reason now =
      (.ok { state := target, created_at := sm.created_at,
             updated_at := now, message := none },
       { current_state := target, created_at := sm.created_at,
         history := sm.history ++
           [{ from_state := sm.current_state, to_state := target,
              timestamp := now, reason := reason }] }) := by
  simp [TaskStateMachine.transition_to, h, TaskStateMachine.get_status]

/-- C3 (amended): for every registered task whose state admits the transition
to `working`, `execute_task_sync` returns the task rather than propagating an
error: on Executor success the task ends `completed` with exactly one result
Artifact built from the Executor's output appended, and on Executor failure
it ends `failed` with the error recorded as the terminal status message. -/
theorem execute_task_sync_spec (mgr : TaskManager) (id : String)
    (task : Task) (result : ExecutionResult) (now : Nat)
    (hfind : mgr.find? id = some task)
    (hcan : task.sm.can_transition_to .working = true) :
    ∃ task' mgr',
      mgr.execute_task_sync id result now = .ok (task', mgr') ∧
      (result.success = true →
        task'.status.state = .completed ∧
        task'.artifacts = task.artifacts ++
          [TaskManager.resultArtifact result.content]) ∧
      (result.success = false →
        task'.status.state = .failed ∧
        task'.status.message = some (TaskManager.errorMessage
          (result.error.getD "Execution failed"))) := by
  have hget : mgr.get_task id = .ok task := by
    simp [TaskManager.get_task, hfind]
  have h1 := transition_to_ok task.sm .working "Starting execution" now hcan
  cases hs : result.success
  · have h3 := transition_to_ok
      { current_state := .working, created_at := task.sm.created_at,
        history := task.sm.history ++
          [{ from_state := task.sm.current_state, to_state := .working,
             timestamp := now, reason := "Starting execution" }] }
      .failed (result.error.getD "Execution failed") now (by
        simp [TaskStateMachine.can_transition_to, VALID_TRANSITIONS])
    simp only [TaskManager.execute_task_sync, hget, h1, hs,
      Bool.false_eq_true, if_false, h3, TaskManager.Task.applyTransition]
    exact ⟨_, _, rfl, fun h => False.elim h, fun _ => ⟨rfl, rfl⟩⟩
  · have h3 := transition_to_ok
      { current_state := .working, created_at := task.sm.created_at,
        history := task.sm.history ++
          [{ from_state := task.sm.current_state, to_state := .working,
             timestamp := now, reason := "Starting execution" }] }
      .completed "Execution completed" now (by
        simp [TaskStateMachine.can_transition_to, VALID_TRANSITIONS])
    simp only [TaskManager.execute_task_sync, hget, h1, hs, if_true,
      Bool.true_eq_false, h3, TaskManager.Task.applyTransition]
    exact ⟨_, _, rfl, fun _ => ⟨rfl, rfl⟩, fun h => False.elim h⟩

/-- A manager holding one task that has already been transitioned to
`working`, reached through the public operations. -/
def workingTaskManager : TaskManager :=
  let m1 := (TaskManager.empty.create_task
    { role := .user, parts := [.text "hi"] } none "t1" "ctx" 0).2
  match m1.transition_state "t1" .working none "start" 1 with
  | .ok (_, m) => m
  | .error _ => TaskManager.empty

/-- Counterexample to C3 as stated: a registered, non-terminal task (state
`working`) for which `execute_task_sync` with a successful Executor result
propagates `InvalidStateTransition` instead of returning the completed task
— the transition table has no `working → working` edge. -/
theorem execute_task_sync_claim_cex :
    ((workingTaskManager.find? "t1").map fun t => t.status.state) =
      some .working ∧
    TERMINAL_STATES.contains .working = false ∧
    workingTaskManager.execute_task_sync "t1"
        { success := true, content := "out" } 2 =
      .error (.invalidTransition
        { from_state := .working, to_state := .working,
          valid_transitions := [.input_required, .auth_required,
                                .completed, .failed, .canceled] }) :=
  ⟨rfl, rfl, rfl⟩

/-- A manager holding one freshly created (submitted) task, for witnesses. -/
def freshManager : TaskManager :=
  (TaskManager.empty.create_task
    { role := .user, parts := [.text "Hello, world!"] } none
    "task-1" "ctx-1" 0).2

/-- The task `freshManager` holds. -/
def freshTask : Task :=
  (TaskManager.empty.create_task
    { role := .user, parts := [.text "Hello, world!"] } none
    "task-1" "ctx-1" 0).1

/-- Witness for C3 at a freshly created task and a successful Executor
result. -/
theorem execute_task_sync_spec_witness :
    freshManager.find? "task-1" = some freshTask ∧
    freshTask.sm.can_transition_to .working = true ∧
    ∃ task' mgr',
      freshManager.execute_task_sync "task-1"
        { success := true, content := "Test response" } 7 =
          .ok (task', mgr') ∧
      (({ success := true, content := "Test response" } :
            ExecutionResult).success = true →
        task'.status.state = .completed ∧
        task'.artifacts = freshTask.artifacts ++
          [TaskManager.resultArtifact "Test response"]) ∧
      (({ success := true, content := "Test response" } :
            ExecutionResult).success = false →
        task'.status.state = .failed ∧
        task'.status.message = some (TaskManager.errorMessage
          ((({ success := true, content := "Test response" } :
            ExecutionResult).error).getD "Execution failed"))) :=
  ⟨rfl, rfl,
   execute_task_sync_spec freshManager "task-1" freshTask
     { success := true, content := "Test response" } 7 rfl rfl⟩

/-- C4: streaming execution of a 3-word successful Executor response yields
exactly this consumed event sequence: one status-update for the `working`
transition first, then exactly 3 content events in chunk order — only the
last marked final — then one final status-update for `completed`; the status
events strictly bracket the content events, and the task ends `completed`. -/
theorem execute_task_stream_spec (mgr : TaskManager) (id : String)
    (task : Task) (w1 w2 w3 : String) (now : Nat)
    (hfind : mgr.find? id = some task)
    (hcan : task.sm.can_transition_to .working = true) :
    ∃ task' mgr',
      mgr.execute_task id (wordChunks [w1, w2, w3]) now =
        .ok ([.statusUpdate .working,
              .content { content := w1 ++ " ", chunk_type := .text,
                         is_final := false },
              .content { content := w2 ++ " ", chunk_type := .text,
                         is_final := false },
              .content { content := w3 ++ " ", chunk_type := .text,
                         is_final := true },
              .statusUpdate .completed], task', mgr') ∧
      task'.status.state = .completed := by
  have hget : mgr.get_task id = .ok task := by
    simp [TaskManager.get_task, hfind]
  have h1 := transition_to_ok task.sm .working "Starting execution" now hcan
  have h3 := transition_to_ok
    { current_state := .working, created_at := task.sm.created_at,
      history := task.sm.history ++
        [{ from_state := task.sm.current_state, to_state := .working,
           timestamp := now, reason := "Starting execution" }] }
    .completed "Streaming done" now (by
      simp [TaskStateMachine.can_transition_to, VALID_TRANSITIONS])
  have hwc : wordChunks [w1, w2, w3] =
      [{ content := w1 ++ " ", chunk_type := .text, is_final := false },
       { content := w2 ++ " ", chunk_type := .text, is_final := false },
       { content := w3 ++ " ", chunk_type := .text, is_final := true }] := rfl
  have hcc : TaskManager.consumeChunks
      [{ content := w1 ++ " ", chunk_type := .text, is_final := false },
       { content := w2 ++ " ", chunk_type := .text, is_final := false },
       { content := w3 ++ " ", chunk_type := .text, is_final := true }] =
      ([.content { content := w1 ++ " ", chunk_type := .text,
                   is_final := false },
        .content { content := w2 ++ " ", chunk_type := .text,
                   is_final := false },
        .content { content := w3 ++ " ", chunk_type := .text,
                   is_final := true }], false) := rfl
  simp only [TaskManager.execute_task, hget, hwc, hcc, h1, h3,
    Bool.false_eq_true, if_false, TaskManager.Task.applyTransition]
  exact ⟨_, _, rfl, rfl⟩

/-- Witness for C4 at a freshly created task and the 3-word response the
test suite streams. -/
theorem execute_task_stream_spec_witness :
    freshManager.find? "task-1" = some freshTask ∧
    freshTask.sm.can_transition_to .working = true ∧
    ∃ task' mgr',
      freshManager.execute_task "task-1"
          (wordChunks ["Hello", "streaming", "world"]) 7 =
        .ok ([.statusUpdate .working,
              .content { content := "Hello" ++ " ", chunk_type := .text,
                         is_final := false },
              .content { content := "streaming" ++ " ", chunk_type := .text,
                         is_final := false },
              .content { content := "world" ++ " ", chunk_type := .text,
                         is_final := true },
              .statusUpdate .completed], task', mgr') ∧
      task'.status.state = .completed :=
  ⟨rfl, rfl,
   execute_task_stream_spec freshManager "task-1" freshTask
     "Hello" "streaming" "world" 7 rfl rfl⟩

/-! Theorems about the LRU cache. -/

namespace LRUCache

lemma eraseKey_length_le {α : Type} (key : String)
    (l : List (String × CacheEntry α)) :
    (eraseKey key l).length ≤ l.length := by
  induction l with
  | nil => simp [eraseKey]
  | cons p rest ih =>
    obtain ⟨k, e⟩ := p
    simp only [eraseKey]
    split
    · simp
    · simpa using ih

lemma lookupKey_some_length {α : Type} (key : String)
    (l : List (String × CacheEntry α)) (e : CacheEntry α)
    (h : lookupKey key l = some e) :
    (eraseKey key l).length + 1 = l.length := by
  induction l with
  | nil => simp [lookupKey] at h
  | cons p rest ih =>
    obtain ⟨k, e'⟩ := p
    simp only [lookupKey] at h
    simp only [eraseKey]
    by_cases hk : (k == key) = true
    · simp [hk]
    · simp only [hk, if_false, List.length_cons]
      rw [if_neg (by simpa using hk)] at h
      simpa using ih h

lemma evict_length_lt {α : Type} (max_size : Nat) (hm : 1 ≤ max_size)
    (l : List (String × CacheEntry α)) :
    (evict max_size l).length < max_size := by
  induction l with
  | nil => simpa [evict] using hm
  | cons p rest ih =>
    simp only [evict]
    split
    · exact ih
    · omega

/-- `set` leaves at most `max_size` entries, whatever the size before. -/
lemma set_size_le {α : Type} (c : LRUCache α) (key : String) (value : α)
    (ttl : Option Nat) (now : Nat) (hm : 1 ≤ c.max_size) :
    (c.set key value ttl now).cache.length ≤ c.max_size := by
  have h := evict_length_lt c.max_size hm (eraseKey key c.cache)
  simp only [set, List.length_append, List.length_cons, List.length_nil]
  omega

/-- `get` never grows the store. -/
lemma get_size_le {α : Type} (c : LRUCache α) (key : String) (now : Nat) :
    ((c.get key now).2).cache.length ≤ c.cache.length := by
  unfold get
  cases hl : lookupKey key c.cache with
  | none => simp
  | some e =>
    by_cases he : e.is_expired now
    · simpa [he] using eraseKey_length_le key c.cache
    · have hlen := lookupKey_some_length key c.cache e hl
      simp only [he, if_false, Bool.false_eq_true, moveToEnd,
        List.length_append, List.length_cons, List.length_nil]
      omega

/-- Every operation preserves `max_size`. -/
lemma applyOp_max_size {α : Type} (c : LRUCache α) (op : CacheOp α) :
    (applyOp c op).max_size = c.max_size := by
  cases op with
  | set key value ttl now => rfl
  | get key now =>
    show ((c.get key now).2).max_size = c.max_size
    unfold get
    cases hl : lookupKey key c.cache with
    | none => rfl
    | some e =>
      by_cases he : e.is_expired now
      · simp [he]
      · simp [he]
  | delete key =>
    show ((c.delete key).2).max_size = c.max_size
    unfold delete
    split <;> rfl
  | clear => rfl
  | cleanupExpired now => rfl

/-- Every operation keeps the store within `max_size` (for `set` this needs
no bound on the state before, only `max_size ≥ 1`). -/
lemma applyOp_size_le {α : Type} (c : LRUCache α) (op : CacheOp α)
    (hm : 1 ≤ c.max_size) (h : c.cache.length ≤ c.max_size) :
    (applyOp c op).cache.length ≤ c.max_size := by
  cases op with
  | set key value ttl now => exact set_size_le c key value ttl now hm
  | get key now => exact le_trans (get_size_le c key now) h
  | delete key =>
    show ((c.delete key).2).cache.length ≤ c.max_size
    unfold delete
    split
    · exact le_trans (eraseKey_length_le key c.cache) h
    · exact h
  | clear =>
    show (c.clear).cache.length ≤ c.max_size
    simp [clear]
  | cleanupExpired now =>
    show ((c.cleanup_expired now).2).cache.length ≤ c.max_size
    exact le_trans (List.length_filter_le _ c.cache) h

/-- C10: for every cache constructed with `max_size ≥ 1`, after any sequence
of `set`, `get`, `delete`, `clear` and `cleanup_expired` operations the
number of stored entries never exceeds `max_size` — `set` evicts
least-recently-used entries before inserting, and no operation grows the
store past the bound. -/
theorem lru_size_invariant {α : Type} (max_size : Nat)
    (default_ttl : Option Nat) (ops : List (CacheOp α))
    (hm : 1 ≤ max_size) :
    (runOps α max_size default_ttl ops).size ≤ max_size := by
  suffices h : ∀ c : LRUCache α, c.max_size = max_size →
      c.cache.length ≤ max_size →
      (ops.foldl applyOp c).cache.length ≤ max_size by
    exact h (init α max_size default_ttl) rfl (by simp [init])
  induction ops with
  | nil => intro c _ h2; simpa using h2
  | cons op rest ih =>
    intro c h1 h2
    simp only [List.foldl_cons]
    exact ih (applyOp c op) ((applyOp_max_size c op).trans h1)
      (by
        have := applyOp_size_le c op (h1 ▸ hm) (h1 ▸ h2)
        simpa [h1] using this)

/-- Witness for C10: a capacity-1 cache stays within bound across a sequence
touching every operation. -/
theorem lru_size_invariant_witness :
    (1 : Nat) ≤ 1 ∧
    (runOps Nat 1 (some 10)
      [.set "a" 0 none 0, .set "b" 1 (some 5) 1, .get "b" 2,
       .get "a" 2, .delete "b", .set "c" 2 none 3,
       .cleanupExpired 100, .set "d" 3 none 101, .clear,
       .set "e" 4 none 102]).size ≤ 1 :=
  ⟨le_refl 1,
   lru_size_invariant 1 (some 10)
     [.set "a" 0 none 0, .set "b" 1 (some 5) 1, .get "b" 2,
      .get "a" 2, .delete "b", .set "c" 2 none 3,
      .cleanupExpired 100, .set "d" 3 none 101, .clear,
      .set "e" 4 none 102] (le_refl 1)⟩

end LRUCache

end Sanhedrin
